import Mathlib

/-!
Shallow embedding of the product-catalog image pipeline of this repository:
`produto/models.py` (`Produto.save`, `Produto.get_preco_formatado`, `Variacao`),
`utils/image_handler.py` (`ImageHandler` and `process_product_image`) and
`produto/templatetags/omfilters.py` (`formata_preco`).

External effects are made explicit:
* PIL images are records of width, height, mode and an abstract pixel payload;
  `Image.resize` and `Image.convert` are constructors on that payload.
* Encoded image bytes are an image together with its encoding (the original
  upload bytes, or a JPEG re-encode with quality and the optimize flag); two
  `ImageData` values are equal exactly when the bytes they stand for are.
* Exceptions raised by the PIL calls, by `super().save()` and by the Supabase
  upload are oracle parameters (`Option String`: `some e` means the external
  call raises exception `e`); results are `Except String`.
* Calls to the Supabase storage API are recorded in an event trace.
-/

deriving instance DecidableEq for Except

/-- Part of a file path after the last slash, as `os.path.basename` computes it
for slash-separated names. -/
def basenameAux : List Char → List Char → List Char
  | [], acc => acc.reverse
  | c :: cs, acc => if c = '/' then basenameAux cs [] else basenameAux cs (c :: acc)

/-- Model of `os.path.basename` on the slash-separated names this code builds. -/
def basename (s : String) : String := String.mk (basenameAux s.toList [])

/-- Characters `django.utils.text.slugify` keeps before collapsing. -/
def keepChar (c : Char) : Bool := c.isAlphanum || c = '_' || c = '-' || c = ' '

/-- Characters that collapse to a single hyphen in a slug. -/
def toHyphen (c : Char) : Bool := c = ' ' || c = '-'

/-- Collapses runs of spaces and hyphens to a single hyphen; the flag records a
pending separator that is emitted only before the next kept character, so
trailing separators are stripped. -/
def collapseAux : Bool → List Char → List Char
  | _, [] => []
  | pend, c :: cs =>
    if toHyphen c then collapseAux true cs
    else (if pend then ['-'] else []) ++ c :: collapseAux false cs

/-- Model of `django.utils.text.slugify` (external library): lowercase, drop
characters other than alphanumerics, underscore, hyphen and space, collapse
space and hyphen runs to one hyphen, strip leading and trailing separators. -/
def slugify (s : String) : String :=
  let cleaned := (s.toList.filter keepChar).map Char.toLower
  String.mk (collapseAux false (cleaned.dropWhile fun c => toHyphen c))

/-- PIL image modes the code distinguishes. -/
inductive ImgMode
  | RGB
  | RGBA
  | LA
  | P
  | otherMode (tag : String)
deriving DecidableEq, Repr

/-- Abstract pixel payload of a PIL image; resizing and mode conversion are
recorded as constructors so distinct processing histories stay distinct. -/
inductive Pix
  | src (id : Nat)
  | scaled (p : Pix) (w h : Nat)
  | rgbOf (p : Pix)
deriving DecidableEq, Repr

/-- Embedding of a PIL `Image`: dimensions, mode and pixel payload. -/
structure PILImage where
  width : Nat
  height : Nat
  mode : ImgMode
  pixels : Pix
deriving DecidableEq, Repr

/-- Embedding of `Image.resize((w, h), Image.LANCZOS)`. -/
def PILImage.resize (img : PILImage) (w h : Nat) : PILImage :=
  { width := w, height := h, mode := img.mode, pixels := Pix.scaled img.pixels w h }

/-- Embedding of `Image.convert('RGB')`: mode becomes RGB, dimensions are kept. -/
def PILImage.convertRGB (img : PILImage) : PILImage :=
  { img with mode := ImgMode.RGB, pixels := Pix.rgbOf img.pixels }

/-- How the bytes of an image file are encoded: the bytes as originally
uploaded (with their original format), or a JPEG re-encode produced by
`img.save(buffer, format='JPEG', quality=q, optimize=...)`. -/
inductive Encoding
  | originalEnc (fmt : String)
  | jpegEnc (quality : Nat) (optimize : Bool)
deriving DecidableEq, Repr

/-- The contents of an image file or buffer: the image it decodes to
(`Image.open`) together with its encoding. Equality of `ImageData` values is
equality of the bytes they stand for. -/
structure ImageData where
  img : PILImage
  enc : Encoding
deriving DecidableEq, Repr

/-- Embedding of a Django `ImageField` value: the stored `name`, the underlying
file (`none` when `hasattr(image_field, 'file')` fails) and whether that file
object has a `read` attribute. A falsy field is `none` at the use sites. -/
structure ImagemField where
  name : String
  file : Option ImageData
  fileReadable : Bool
deriving DecidableEq, Repr

/-- The `datetime.now()` components `generate_file_path` reads. -/
structure UploadDate where
  year : String
  month : String
deriving DecidableEq, Repr

/-- A call to the Supabase storage API recorded by the embedding: one
`supabase.storage.from_(bucket).upload(path, file_data, ...)` invocation with
the bytes and bucket path it was given. -/
inductive HandlerEvent
  | uploadCall (data : ImageData) (path : String)
deriving DecidableEq, Repr

/-- Embedding of the `ImageHandler` instance state set in `__init__`. -/
structure ImageHandler where
  max_width : Nat
  jpeg_quality : Nat
  bucket_name : String
  supabase_url : String
  supabase_key : String
deriving DecidableEq, Repr

/-- A missing or empty environment variable, as `not all([...])` sees it. -/
def falsyEnv : Option String → Bool
  | none => true
  | some s => s == ""

/-- Embedding of `ImageHandler.__init__`: reads the three environment
variables (`os.getenv` results passed as options), raises when any is missing
or empty, otherwise sets `max_width = 800` and `jpeg_quality = 60`. -/
def ImageHandler.init (bucket url key : Option String) : Except String ImageHandler :=
  if falsyEnv bucket || falsyEnv url || falsyEnv key then
    Except.error "Credenciais do Supabase nao configuradas nas variaveis de ambiente."
  else
    Except.ok { max_width := 800, jpeg_quality := 60, bucket_name := bucket.getD "",
                supabase_url := url.getD "", supabase_key := key.getD "" }

/-- An `ImageHandler` built from configured credentials; `max_width` and
`jpeg_quality` take the values `__init__` assigns. -/
def ImageHandler.make (b u k : String) : ImageHandler :=
  { max_width := 800, jpeg_quality := 60, bucket_name := b, supabase_url := u, supabase_key := k }

/-- The modes `resize_image` converts to RGB before JPEG encoding. -/
def isConvertMode : ImgMode → Bool
  | ImgMode.RGBA => true
  | ImgMode.LA => true
  | ImgMode.P => true
  | _ => false

/-- The pure body of `ImageHandler.resize_image` (lines 47-67): open the file,
convert RGBA, LA or P images to RGB, resize with LANCZOS when the width
exceeds `mw` (height `int(mw * height / width)`), and always re-encode the
result as JPEG with `self.jpeg_quality` and `optimize=True` into the buffer. -/
def ImageHandler.resizeCore (h : ImageHandler) (image_file : ImageData) (mw : Nat) : ImageData :=
  let img0 := image_file.img
  let img1 := if isConvertMode img0.mode then img0.convertRGB else img0
  let img2 := if img1.width > mw then img1.resize mw ((mw * img1.height) / img1.width) else img1
  { img := img2, enc := Encoding.jpegEnc h.jpeg_quality true }

/-- Embedding of `ImageHandler.resize_image`: `pilExn` is the oracle for an
exception raised inside the `try` block, which the `except` clause re-raises
unchanged (`raise e`); `max_width = none` selects the default
`self.max_width`. -/
def ImageHandler.resize_image (h : ImageHandler) (pilExn : Option String)
    (image_file : ImageData) (max_width : Option Nat) : Except String ImageData :=
  match pilExn with
  | some e => Except.error e
  | none => Except.ok (h.resizeCore image_file (max_width.getD h.max_width))

/-- Embedding of `ImageHandler.generate_file_path`:
`produto_imagens/YYYY/MM/filename`. -/
def ImageHandler.generate_file_path (now : UploadDate) (filename : String) : String :=
  "produto_imagens/" ++ now.year ++ "/" ++ now.month ++ "/" ++ filename

/-- The public URL `upload_to_supabase` builds on success (line 121). -/
def ImageHandler.public_url (h : ImageHandler) (file_path : String) : String :=
  h.supabase_url ++ "/object/public/" ++ h.bucket_name ++ "/" ++ file_path

/-- Embedding of `ImageHandler.upload_to_supabase`: computes the bucket path,
reads the buffer bytes, performs exactly one upload call (recorded in the
trace), and either re-raises the upload exception unchanged or returns the
public URL. -/
def ImageHandler.upload_to_supabase (h : ImageHandler) (uploadExn : Option String)
    (now : UploadDate) (image_buffer : ImageData) (filename : String) :
    Except String String × List HandlerEvent :=
  let file_path := ImageHandler.generate_file_path now filename
  match uploadExn with
  | some e => (Except.error e, [HandlerEvent.uploadCall image_buffer file_path])
  | none => (Except.ok (h.public_url file_path), [HandlerEvent.uploadCall image_buffer file_path])

/-- Embedding of `ImageHandler.process_and_upload_image`: returns `none` when
the field is falsy or has no `file` attribute; otherwise takes the basename of
the original name, resizes via `resize_image`, uploads the resized buffer via
`upload_to_supabase`, and returns the public URL; any exception from the two
steps is re-raised unchanged. -/
def ImageHandler.process_and_upload_image (h : ImageHandler) (pilExn uploadExn : Option String)
    (now : UploadDate) (image_field : Option ImagemField) :
    Except String (Option String) × List HandlerEvent :=
  match image_field with
  | none => (Except.ok none, [])
  | some fld =>
    match fld.file with
    | none => (Except.ok none, [])
    | some d =>
      let filename := basename fld.name
      match h.resize_image pilExn d none with
      | Except.error e => (Except.error e, [])
      | Except.ok resized_buffer =>
        match h.upload_to_supabase uploadExn now resized_buffer filename with
        | (Except.error e, evs) => (Except.error e, evs)
        | (Except.ok url, evs) => (Except.ok (some url), evs)

/-- Embedding of `ImageHandler.should_process_image`: `not settings.DEBUG and
image_field and hasattr(image_field, 'file') and
hasattr(image_field.file, 'read')`. -/
def ImageHandler.should_process_image (debug : Bool) (image_field : Option ImagemField) : Bool :=
  !debug &&
    (match image_field with
     | none => false
     | some fld => fld.file.isSome && fld.fileReadable)

/-- Embedding of the module-level helper `process_product_image`: processes and
uploads through the handler exactly when `should_process_image` holds,
otherwise returns `None` without touching storage. -/
def process_product_image (h : ImageHandler) (debug : Bool) (pilExn uploadExn : Option String)
    (now : UploadDate) (image_field : Option ImagemField) :
    Except String (Option String) × List HandlerEvent :=
  if ImageHandler.should_process_image debug image_field then
    h.process_and_upload_image pilExn uploadExn now image_field
  else (Except.ok none, [])

/-- Modelled from the spec: the module `utils/utils.py` is not under `src/`;
the spec says only that the repository has "template filters for price
formatting", so `utils.formata_preco` is modelled as a price-formatting
function. Its exact output format is immaterial: the claims only relate its
two call sites, which both pass the value through unchanged. -/
def utils.formata_preco (value : ℚ) : String :=
  "R$ " ++ toString value.num ++ "/" ++ toString value.den

/-- Embedding of the template filter `formata_preco` in
`produto/templatetags/omfilters.py`: it returns `utils.formata_preco(value)`. -/
def omfilters.formata_preco (value : ℚ) : String := utils.formata_preco value

/-- Embedding of the `Produto` record: the fields declared in
`produto/models.py`. Prices (Django `FloatField`) are embedded as rationals;
none of the verified code computes with them. -/
structure Produto where
  nome : String
  descricao_curta : String
  descricao_longa : String
  imagem : Option ImagemField
  slug : Option String
  preco_marketing : ℚ
  preco_marketing_promocional : ℚ
  tipo : Char
deriving DecidableEq, Repr

/-- Embedding of `Produto.get_preco_formatado`:
`utils.formata_preco(self.preco_marketing)`. -/
def Produto.get_preco_formatado (p : Produto) : String := utils.formata_preco p.preco_marketing

/-- Embedding of `Produto.get_preco_promocional_formatado`. -/
def Produto.get_preco_promocional_formatado (p : Produto) : String :=
  utils.formata_preco p.preco_marketing_promocional

/-- A falsy slug in `if not self.slug`: `None` or the empty string. -/
def slugFalsy : Option String → Bool
  | none => true
  | some s => s == ""

/-- The guard of the image branch of `Produto.save`:
`self.imagem and hasattr(self.imagem.file, 'read')` (the field is truthy, its
file is present and the file object is readable). -/
def produtoImagePresent (p : Produto) : Bool :=
  match p.imagem with
  | none => false
  | some im =>
    match im.file with
    | none => false
    | some _ => im.fileReadable

/-- The resize logic inside the `try` block of `Produto.save` (lines 54-69), as
a function from the file contents to the resulting file contents: when the
width exceeds 800, resize to width 800 and height `int(800 * height / width)`
and re-encode as JPEG with quality 60 and `optimize=True`; otherwise the file
is left exactly as it was. -/
def Produto.resizeStep (d : ImageData) : ImageData :=
  if d.img.width > 800 then
    { img := d.img.resize 800 ((800 * d.img.height) / d.img.width),
      enc := Encoding.jpegEnc 60 true }
  else d

/-- The slug assignment of `Produto.save` (lines 45-46): a falsy slug becomes
`slugify(self.nome)`, a set slug is kept. -/
def Produto.slugStep (p : Produto) : Produto :=
  if slugFalsy p.slug then { p with slug := some (slugify p.nome) } else p

/-- The successful `try` block of `Produto.save` applied to the record: when
the file width exceeds 800 the file is replaced by the resized JPEG and the
name by its basename; otherwise the image field is untouched. -/
def Produto.imageStep (p1 : Produto) : Produto :=
  { p1 with imagem := p1.imagem.map fun im =>
      match im.file with
      | none => im
      | some d =>
        if d.img.width > 800 then
          { im with file := some (Produto.resizeStep d), name := basename im.name }
        else im }

/-- The state `Produto.save` builds before calling `super().save()`: the slug
is generated from `nome` when falsy; then, outside DEBUG and with a readable
image file, the `try` block runs, and an exception raised in it (`resizeExn`)
is caught and only printed, leaving the record as it was. -/
def Produto.prepare (debug : Bool) (resizeExn : Option String) (p : Produto) : Produto :=
  let p1 := Produto.slugStep p
  if !debug && produtoImagePresent p1 then
    match resizeExn with
    | some _ => p1
    | none => Produto.imageStep p1
  else p1

/-- The `super().save()` call recorded with the exact record state passed to
it. -/
inductive SaveEvent
  | superSaveCalled (st : Produto)
deriving DecidableEq, Repr

/-- Embedding of `Produto.save`: prepares slug and image as `prepare` does,
then calls `super().save()` (`superExn` is the oracle for an exception raised
there, which the final `except` clause re-raises unchanged). The result is the
persisted record on success. -/
def Produto.save (debug : Bool) (resizeExn superExn : Option String) (p : Produto) :
    Except String Produto × List SaveEvent :=
  let p2 := Produto.prepare debug resizeExn p
  match superExn with
  | some e => (Except.error e, [SaveEvent.superSaveCalled p2])
  | none => (Except.ok p2, [SaveEvent.superSaveCalled p2])

/-- Embedding of the `Variacao` record: exactly the fields declared in
`produto/models.py`; `estoque` is a `PositiveIntegerField`, embedded as a
natural number. -/
structure Variacao where
  produto : Nat
  nome : Option String
  preco : ℚ
  preco_promocional : ℚ
  estoque : Nat
deriving DecidableEq, Repr

/-- A `Variacao` built with the declared field defaults:
`preco_promocional = 0`, `estoque = 1`, `nome` blank. -/
def Variacao.new (produto : Nat) (preco : ℚ) : Variacao :=
  { produto := produto, nome := none, preco := preco, preco_promocional := 0, estoque := 1 }

/-- A configured handler used as a concrete instance in witnesses. -/
def hTest : ImageHandler :=
  ImageHandler.make "bucket" "https://example.supabase.co/storage/v1" "key"

/-- A 1000 by 500 RGB image. -/
def imgWide : PILImage := { width := 1000, height := 500, mode := ImgMode.RGB, pixels := Pix.src 0 }

/-- A 500 by 300 RGB image. -/
def imgSmall : PILImage := { width := 500, height := 300, mode := ImgMode.RGB, pixels := Pix.src 1 }

/-- The wide image as an originally-PNG-encoded upload. -/
def dWide : ImageData := { img := imgWide, enc := Encoding.originalEnc "PNG" }

/-- The small image as an originally-PNG-encoded upload. -/
def dSmall : ImageData := { img := imgSmall, enc := Encoding.originalEnc "PNG" }

/-- An image field holding the wide image under a dated media path. -/
def fldWide : ImagemField :=
  { name := "produto_imagens/2024/01/pic.png", file := some dWide, fileReadable := true }

/-- A concrete upload date. -/
def dateTest : UploadDate := { year := "2024", month := "01" }

/-- A concrete product with a set slug and the wide image. -/
def pTest : Produto :=
  { nome := "Meu Produto", descricao_curta := "c", descricao_longa := "l",
    imagem := some fldWide, slug := some "meu-produto",
    preco_marketing := 10, preco_marketing_promocional := 5, tipo := 'V' }

/-- The concrete product with no slug yet. -/
def pNoSlug : Produto := { pTest with slug := none }

/-- C3: the image-handling logic is duplicated but inconsistent between
`Produto.save` and `ImageHandler`: there is an input image file on which the
resize step inside `Produto.save` and `ImageHandler.resize_image` produce
different outputs (a 500 px wide image is left byte-identical by the save
step but is re-encoded as JPEG quality 60 by the handler). -/
theorem C3_resize_paths_inconsistent :
    ∃ d : ImageData,
      ImageHandler.resize_image hTest none d none ≠ Except.ok (Produto.resizeStep d) :=
  ⟨dSmall, by decide⟩

/-- C6: the price-formatting template filter and the model method agree: for
every price value `v`, `omfilters.formata_preco v` equals
`Produto.get_preco_formatado` on any product whose `preco_marketing` is `v`,
and both are exactly `utils.formata_preco` applied to the value. -/
theorem C6_price_formatting_agrees (v : ℚ) (p : Produto) (hp : p.preco_marketing = v) :
    omfilters.formata_preco v = p.get_preco_formatado ∧
    omfilters.formata_preco v = utils.formata_preco v ∧
    p.get_preco_formatado = utils.formata_preco p.preco_marketing := by
  simp [omfilters.formata_preco, Produto.get_preco_formatado, hp]

/-- Witness for C6 at a concrete price and product. -/
theorem C6_witness :
    omfilters.formata_preco 10 = pTest.get_preco_formatado :=
  (C6_price_formatting_agrees 10 pTest rfl).1

/-- C7: a `Variacao` carries exactly the parent product, name, price,
promotional price and stock count (two records are equal exactly when those
five fields agree), the stock count is non-negative as an integer in every
record, and its declared default is 1. -/
theorem C7_variacao_fields_and_estoque :
    (∀ v w : Variacao, v = w ↔
      v.produto = w.produto ∧ v.nome = w.nome ∧ v.preco = w.preco ∧
      v.preco_promocional = w.preco_promocional ∧ v.estoque = w.estoque) ∧
    (∀ v : Variacao, (0 : ℤ) ≤ (v.estoque : ℤ)) ∧
    (∀ pr pe, (Variacao.new pr pe).estoque = 1) := by
  refine ⟨fun v w => ?_, fun v => Int.natCast_nonneg v.estoque, fun pr pe => rfl⟩
  constructor
  · rintro rfl
    exact ⟨rfl, rfl, rfl, rfl, rfl⟩
  · rintro ⟨h1, h2, h3, h4, h5⟩
    cases v
    cases w
    simp_all

/-- C2 as stated fails on the code: an exception raised during resizing inside
`Produto.save` is caught and swallowed rather than re-raised; the concrete
save call below succeeds instead of propagating the resize exception. -/
theorem C2_counterexample :
    (Produto.save false (some "boom") none pTest).1 ≠ Except.error "boom" ∧
    (Produto.save false (some "boom") none pTest).1 =
      Except.ok (Produto.prepare false (some "boom") pTest) := by
  decide

/-- C2 amended: in the handler module every exception raised during resizing
or uploading is re-raised unchanged to the caller, and in `Produto.save` an
exception raised by `super().save()` is re-raised unchanged; but an exception
raised during the in-save resize step is caught and only printed, and the
save proceeds normally. -/
theorem C2_amended_error_propagation (h : ImageHandler) (e : String) :
    (∀ d mw, h.resize_image (some e) d mw = Except.error e) ∧
    (∀ now buf fn, (h.upload_to_supabase (some e) now buf fn).1 = Except.error e) ∧
    (∀ now upE fld d, fld.file = some d →
      (h.process_and_upload_image (some e) upE now (some fld)).1 = Except.error e) ∧
    (∀ now fld d, fld.file = some d →
      (h.process_and_upload_image none (some e) now (some fld)).1 = Except.error e) ∧
    (∀ debug rex p, (Produto.save debug rex (some e) p).1 = Except.error e) ∧
    (∀ p, (Produto.save false (some e) none p).1 =
      Except.ok (Produto.prepare false (some e) p)) := by
  refine ⟨fun d mw => rfl, fun now buf fn => rfl, ?_, ?_, fun debug rex p => rfl, fun p => rfl⟩
  · intro now upE fld d hf
    simp [ImageHandler.process_and_upload_image, hf, ImageHandler.resize_image]
  · intro now fld d hf
    simp [ImageHandler.process_and_upload_image, hf, ImageHandler.resize_image,
      ImageHandler.upload_to_supabase]

/-- Witness for the amended C2 at concrete inputs. -/
theorem C2_amended_witness :
    (hTest.process_and_upload_image (some "err") none dateTest (some fldWide)).1 =
      Except.error "err" ∧
    (hTest.process_and_upload_image none (some "err") dateTest (some fldWide)).1 =
      Except.error "err" :=
  ⟨(C2_amended_error_propagation hTest "err").2.2.1 dateTest none fldWide dWide rfl,
   (C2_amended_error_propagation hTest "err").2.2.2.1 dateTest fldWide dWide rfl⟩

/-- The slug assignment touches no field but `slug`. -/
theorem Produto.slugStep_imagem (p : Produto) : (Produto.slugStep p).imagem = p.imagem := by
  unfold Produto.slugStep
  split <;> rfl

/-- `prepare` yields either the slug-updated record or that record with only
its image field processed. -/
theorem Produto.prepare_or (debug : Bool) (rex : Option String) (p : Produto) :
    Produto.prepare debug rex p = Produto.slugStep p ∨
    Produto.prepare debug rex p = Produto.imageStep (Produto.slugStep p) := by
  unfold Produto.prepare
  cases rex with
  | some e => exact Or.inl (ite_self _)
  | none =>
    by_cases hb : (!debug && produtoImagePresent (Produto.slugStep p)) = true
    · exact Or.inr (by simp [hb])
    · exact Or.inl (by simp [hb])

/-- When the resize step raises, `prepare` is the slug-updated record alone. -/
theorem Produto.prepare_someExn (debug : Bool) (e : String) (p : Produto) :
    Produto.prepare debug (some e) p = Produto.slugStep p := by
  unfold Produto.prepare
  exact ite_self _

/-- With DEBUG set, `prepare` is the slug-updated record alone. -/
theorem Produto.prepare_debug (rex : Option String) (p : Produto) :
    Produto.prepare true rex p = Produto.slugStep p := rfl

/-- The image step touches no field but `imagem`. -/
theorem Produto.imageStep_fields (q : Produto) :
    (Produto.imageStep q).nome = q.nome ∧
    (Produto.imageStep q).descricao_curta = q.descricao_curta ∧
    (Produto.imageStep q).descricao_longa = q.descricao_longa ∧
    (Produto.imageStep q).slug = q.slug ∧
    (Produto.imageStep q).preco_marketing = q.preco_marketing ∧
    (Produto.imageStep q).preco_marketing_promocional = q.preco_marketing_promocional ∧
    (Produto.imageStep q).tipo = q.tipo :=
  ⟨rfl, rfl, rfl, rfl, rfl, rfl, rfl⟩

/-- The slug assignment touches no field but `slug`, and sets it from `nome`
exactly when the slug was falsy. -/
theorem Produto.slugStep_fields (p : Produto) :
    (Produto.slugStep p).nome = p.nome ∧
    (Produto.slugStep p).descricao_curta = p.descricao_curta ∧
    (Produto.slugStep p).descricao_longa = p.descricao_longa ∧
    (Produto.slugStep p).preco_marketing = p.preco_marketing ∧
    (Produto.slugStep p).preco_marketing_promocional = p.preco_marketing_promocional ∧
    (Produto.slugStep p).tipo = p.tipo ∧
    (Produto.slugStep p).slug =
      (if slugFalsy p.slug then some (slugify p.nome) else p.slug) := by
  unfold Produto.slugStep
  split <;> exact ⟨rfl, rfl, rfl, rfl, rfl, rfl, rfl⟩

/-- C1: for every image field accepted for processing (present, with a file),
`process_and_upload_image` resizes first and then uploads exactly the resized
bytes: the trace is one upload call whose payload is the resized buffer at
the computed bucket path, the returned value is that path's public URL, and
every upload event in the trace carries the resized bytes, so the un-resized
original is never uploaded. -/
theorem C1_transform_then_upload
    (h : ImageHandler) (now : UploadDate) (fld : ImagemField) (d : ImageData)
    (hf : fld.file = some d) :
    h.process_and_upload_image none none now (some fld) =
      (Except.ok (some (h.public_url (ImageHandler.generate_file_path now (basename fld.name)))),
       [HandlerEvent.uploadCall (h.resizeCore d h.max_width)
         (ImageHandler.generate_file_path now (basename fld.name))]) ∧
    (∀ ev ∈ (h.process_and_upload_image none none now (some fld)).2,
      ∀ dat pth, ev = HandlerEvent.uploadCall dat pth → dat = h.resizeCore d h.max_width) := by
  have key : h.process_and_upload_image none none now (some fld) =
      (Except.ok (some (h.public_url (ImageHandler.generate_file_path now (basename fld.name)))),
       [HandlerEvent.uploadCall (h.resizeCore d h.max_width)
         (ImageHandler.generate_file_path now (basename fld.name))]) := by
    simp [ImageHandler.process_and_upload_image, hf, ImageHandler.resize_image,
      ImageHandler.upload_to_supabase]
  refine ⟨key, ?_⟩
  intro ev hev dat pth hevq
  subst hevq
  rw [key] at hev
  simp at hev
  exact hev.1

/-- Witness for C1 at a concrete handler, date and image field. -/
theorem C1_witness :
    hTest.process_and_upload_image none none dateTest (some fldWide) =
      (Except.ok (some (hTest.public_url
          (ImageHandler.generate_file_path dateTest (basename fldWide.name)))),
       [HandlerEvent.uploadCall (hTest.resizeCore dWide hTest.max_width)
         (ImageHandler.generate_file_path dateTest (basename fldWide.name))]) :=
  (C1_transform_then_upload hTest dateTest fldWide dWide rfl).1

/-- C4: `resize_image` bounds the width preserving proportions: with the
effective maximum width (the argument, or the default `self.max_width`, which
construction sets to 800), an input wider than that comes out with width
exactly the maximum and height `floor(max * height / width)`, and an input of
width at most the maximum keeps its pixel dimensions. -/
theorem C4_resize_bounds_width
    (h : ImageHandler) (d : ImageData) (mwArg : Option Nat) (b : ImageData)
    (hres : h.resize_image none d mwArg = Except.ok b) :
    (d.img.width > mwArg.getD h.max_width →
      b.img.width = mwArg.getD h.max_width ∧
      b.img.height = mwArg.getD h.max_width * d.img.height / d.img.width) ∧
    (d.img.width ≤ mwArg.getD h.max_width →
      b.img.width = d.img.width ∧ b.img.height = d.img.height) ∧
    (∀ bu u k, (ImageHandler.make bu u k).max_width = 800) := by
  have hb : b = h.resizeCore d (mwArg.getD h.max_width) := by
    have h1 := hres
    simp [ImageHandler.resize_image] at h1
    exact h1.symm
  subst hb
  refine ⟨?_, ?_, fun bu u k => rfl⟩
  · intro hgt
    by_cases hm : isConvertMode d.img.mode <;>
      simp [ImageHandler.resizeCore, PILImage.resize, PILImage.convertRGB, hm, hgt]
  · intro hle
    by_cases hm : isConvertMode d.img.mode <;>
      simp [ImageHandler.resizeCore, PILImage.resize, PILImage.convertRGB, hm,
        Nat.not_lt.mpr hle]

/-- Witness for C4 at a concrete 1000 px wide image and the default width. -/
theorem C4_witness :
    (hTest.resizeCore dWide 800).img.width = 800 ∧
    (hTest.resizeCore dWide 800).img.height = 800 * dWide.img.height / dWide.img.width :=
  (C4_resize_bounds_width hTest dWide none (hTest.resizeCore dWide 800) rfl).1 (by decide)

/-- C5: the upload is attempted at most once per call: every trace of
`process_and_upload_image` holds at most one storage call, even when the
upload raises (no retry); and nothing is cached between calls: whenever the
field holds a file and resizing succeeds, the trace of the call is exactly
the freshly recomputed resize followed by its single upload attempt,
whatever the upload outcome. -/
theorem C5_at_most_one_upload
    (h : ImageHandler) (pilExn upExn : Option String) (now : UploadDate)
    (fld : Option ImagemField) :
    (h.process_and_upload_image pilExn upExn now fld).2.length ≤ 1 ∧
    (∀ f d, fld = some f → f.file = some d → pilExn = none →
      (h.process_and_upload_image pilExn upExn now fld).2 =
        [HandlerEvent.uploadCall (h.resizeCore d h.max_width)
          (ImageHandler.generate_file_path now (basename f.name))]) := by
  constructor
  · cases fld with
    | none => simp [ImageHandler.process_and_upload_image]
    | some f =>
      cases hf : f.file with
      | none => simp [ImageHandler.process_and_upload_image, hf]
      | some d =>
        cases pilExn with
        | some e =>
          simp [ImageHandler.process_and_upload_image, hf, ImageHandler.resize_image]
        | none =>
          cases upExn with
          | some e =>
            simp [ImageHandler.process_and_upload_image, hf, ImageHandler.resize_image,
              ImageHandler.upload_to_supabase]
          | none =>
            simp [ImageHandler.process_and_upload_image, hf, ImageHandler.resize_image,
              ImageHandler.upload_to_supabase]
  · intro f d hfld hf hpil
    subst hfld
    subst hpil
    cases upExn <;>
      simp [ImageHandler.process_and_upload_image, hf, ImageHandler.resize_image,
        ImageHandler.upload_to_supabase]

/-- Witness for C5: concrete call whose upload raises still records exactly
one upload attempt of the freshly resized buffer. -/
theorem C5_witness :
    (hTest.process_and_upload_image none (some "fail") dateTest (some fldWide)).2 =
      [HandlerEvent.uploadCall (hTest.resizeCore dWide hTest.max_width)
        (ImageHandler.generate_file_path dateTest (basename fldWide.name))] :=
  (C5_at_most_one_upload hTest none (some "fail") dateTest (some fldWide)).2
    fldWide dWide rfl rfl rfl

/-- C8: a failure of the in-save resize step never prevents persistence: when
resizing raises inside `Produto.save`, the exception is swallowed,
`super().save()` is still called with the prepared record, that record keeps
the original unmodified image field, and (when `super().save()` itself does
not fail) the save returns the persisted record. -/
theorem C8_resize_failure_still_saves
    (p : Produto) (e : String) (superExn : Option String) :
    (Produto.save false (some e) superExn p).2 =
      [SaveEvent.superSaveCalled (Produto.prepare false (some e) p)] ∧
    (Produto.prepare false (some e) p).imagem = p.imagem ∧
    (superExn = none →
      (Produto.save false (some e) superExn p).1 =
        Except.ok (Produto.prepare false (some e) p)) := by
  refine ⟨?_, ?_, ?_⟩
  · cases superExn <;> rfl
  · rw [Produto.prepare_someExn]
    exact Produto.slugStep_imagem p
  · intro hse
    subst hse
    rfl

/-- Witness for C8 at a concrete product and resize exception. -/
theorem C8_witness :
    (Produto.save false (some "late") none pTest).1 =
      Except.ok (Produto.prepare false (some "late") pTest) :=
  (C8_resize_failure_still_saves pTest "late" none).2.2 rfl

/-- C9: `Produto.save` generates a slug exactly when one is missing: a falsy
slug becomes `slugify(nome)` and a set slug is kept unchanged; no field other
than `slug` and `imagem` is modified before delegating, and `super().save()`
is called exactly with the prepared record. -/
theorem C9_slug_generation_and_frame
    (debug : Bool) (rex : Option String) (p : Produto) :
    (slugFalsy p.slug = true →
      (Produto.prepare debug rex p).slug = some (slugify p.nome)) ∧
    (slugFalsy p.slug = false → (Produto.prepare debug rex p).slug = p.slug) ∧
    ((Produto.prepare debug rex p).nome = p.nome ∧
      (Produto.prepare debug rex p).descricao_curta = p.descricao_curta ∧
      (Produto.prepare debug rex p).descricao_longa = p.descricao_longa ∧
      (Produto.prepare debug rex p).preco_marketing = p.preco_marketing ∧
      (Produto.prepare debug rex p).preco_marketing_promocional =
        p.preco_marketing_promocional ∧
      (Produto.prepare debug rex p).tipo = p.tipo) ∧
    (∀ sex, (Produto.save debug rex sex p).2 =
      [SaveEvent.superSaveCalled (Produto.prepare debug rex p)]) := by
  have hslug : (Produto.prepare debug rex p).slug =
      (if slugFalsy p.slug then some (slugify p.nome) else p.slug) := by
    rcases Produto.prepare_or debug rex p with hp | hp <;> rw [hp]
    · exact (Produto.slugStep_fields p).2.2.2.2.2.2
    · rw [(Produto.imageStep_fields (Produto.slugStep p)).2.2.2.1]
      exact (Produto.slugStep_fields p).2.2.2.2.2.2
  refine ⟨?_, ?_, ?_, ?_⟩
  · intro hs
    rw [hslug, hs]
    rfl
  · intro hs
    rw [hslug, hs]
    rfl
  · rcases Produto.prepare_or debug rex p with hp | hp <;> rw [hp]
    · have hf := Produto.slugStep_fields p
      exact ⟨hf.1, hf.2.1, hf.2.2.1, hf.2.2.2.1, hf.2.2.2.2.1, hf.2.2.2.2.2.1⟩
    · have hi := Produto.imageStep_fields (Produto.slugStep p)
      have hf := Produto.slugStep_fields p
      exact ⟨hi.1.trans hf.1, hi.2.1.trans hf.2.1, hi.2.2.1.trans hf.2.2.1,
        (hi.2.2.2.2.1).trans hf.2.2.2.1, (hi.2.2.2.2.2.1).trans hf.2.2.2.2.1,
        (hi.2.2.2.2.2.2).trans hf.2.2.2.2.2.1⟩
  · intro sex
    cases sex <;> rfl

/-- Witness for C9 at a product with no slug yet. -/
theorem C9_witness :
    (Produto.prepare false none pNoSlug).slug = some (slugify pNoSlug.nome) :=
  (C9_slug_generation_and_frame false none pNoSlug).1 rfl

/-- C10: with `settings.DEBUG` true no image is ever processed or uploaded:
`should_process_image` is false for every field, `process_product_image`
returns `None` with no storage call, and the image branch of `Produto.save`
is never entered, so the image field passes through `save` unmodified
regardless of the resize oracle. -/
theorem C10_debug_skips_image_processing
    (h : ImageHandler) (fld : Option ImagemField) (rex pilE upE : Option String)
    (now : UploadDate) (p : Produto) :
    ImageHandler.should_process_image true fld = false ∧
    process_product_image h true pilE upE now fld = (Except.ok none, []) ∧
    (Produto.prepare true rex p).imagem = p.imagem ∧
    Produto.prepare true rex p = Produto.prepare true none p := by
  refine ⟨rfl, rfl, ?_, ?_⟩
  · rw [Produto.prepare_debug]
    exact Produto.slugStep_imagem p
  · rw [Produto.prepare_debug, Produto.prepare_debug]
